import Mathlib

/-!
Shallow embedding of the audio-interrogator device pipeline
(`src/main.rs`, `src/devices/types.rs`): device records, the
enumerator record constructors, the stream-description parser, the
aggregator and the filter/deduplicator, together with theorems checking
the specification's claims about them.

Rust strings are modelled as Lean `String` (a wrapper around
`List Char`), and the relevant `str` operations (`contains`,
`starts_with`, `replace`, `to_lowercase`, `lines`, `trim`, `split`,
`find`, integer parsing) are implemented on the underlying character
lists with the same semantics for the ASCII data this program handles.
-/

namespace AudioInterrogator

/-- Rust `str::find` for a literal substring pattern: position of the
first occurrence of `needle` in `hay` (a character index; identical to
Rust's byte index on the ASCII data handled here). -/
def findSub : List Char → List Char → Option Nat
  | [], needle => if needle = [] then some 0 else none
  | c :: rest, needle =>
    if needle.isPrefixOf (c :: rest) then some 0
    else (findSub rest needle).map (· + 1)

/-- Rust `str::contains` (contiguous substring test). -/
def strContains (hay needle : String) : Bool :=
  (findSub hay.data needle.data).isSome

/-- Rust `str::starts_with`. -/
def strStarts (s p : String) : Bool :=
  p.data.isPrefixOf s.data

/-- Rust `str::to_lowercase`, character-wise. -/
def strToLower (s : String) : String :=
  ⟨s.data.map Char.toLower⟩

/-- Fuelled worker for `str::replace`: replaces every non-overlapping
occurrence of `pat` (scanning left to right) by `rep`.  The fuel is
always at least the length of the remaining text, so it never runs out. -/
def replaceAux (pat rep : List Char) : Nat → List Char → List Char
  | _, [] => []
  | 0, s => s
  | fuel + 1, c :: rest =>
    if pat ≠ [] ∧ pat.isPrefixOf (c :: rest) then
      rep ++ replaceAux pat rep fuel (rest.drop (pat.length - 1))
    else
      c :: replaceAux pat rep fuel rest

/-- Rust `str::replace` (replaces ALL occurrences of `pat` by `rep`). -/
def strReplace (s pat rep : String) : String :=
  ⟨replaceAux pat.data rep.data s.data.length s.data⟩

/-- Split a character list at every occurrence of `sep`
(Rust `str::split` on a single-character pattern: empty pieces kept,
`""` splits to `[""]`). -/
def splitOnChar (sep : Char) : List Char → List (List Char)
  | [] => [[]]
  | c :: rest =>
    if c = sep then
      [] :: splitOnChar sep rest
    else
      match splitOnChar sep rest with
      | [] => [[c]]
      | p :: ps => (c :: p) :: ps

/-- Worker for Rust `str::lines` on the pieces produced by splitting at
`'\n'`: every piece except the last was terminated by a newline and has
a trailing carriage return stripped; a final empty piece (text ending in
a newline) produces no line, and a final non-empty piece is kept
verbatim. -/
def rustLinesAux : List (List Char) → List (List Char)
  | [] => []
  | [last] => if last = [] then [] else [last]
  | p :: rest =>
    (match p.getLast? with
     | some '\r' => p.dropLast
     | _ => p) :: rustLinesAux rest

/-- Rust `str::lines`. -/
def rustLines (s : List Char) : List (List Char) :=
  rustLinesAux (splitOnChar '\n' s)

/-- Rust `str::trim` (whitespace characters stripped from both ends). -/
def trimChars (l : List Char) : List Char :=
  ((l.dropWhile Char.isWhitespace).reverse.dropWhile Char.isWhitespace).reverse

/-- Rust `str::parse::<u32>`: an optional leading `'+'`, then one or
more decimal digits, value below `2^32`. -/
def parseU32 (s : List Char) : Option Nat :=
  let t := match s with
    | '+' :: rest => rest
    | _ => s
  if t ≠ [] ∧ t.all Char.isDigit then
    let v := t.foldl (fun a c => a * 10 + (c.toNat - 48)) 0
    if v < 4294967296 then some v else none
  else none

/-! ## Data model (`AudioDeviceInfo`, `SystemAudioInfo`) -/

/-- One audio endpoint record (struct `AudioDeviceInfo` in
`src/main.rs` / `src/devices/types.rs`).  The Rust `u32`/`usize`
channel counts and rates are modelled as `Nat` (all values are far
below 2^32 and no arithmetic is performed on them). -/
structure AudioDeviceInfo where
  name : String
  device_type : String
  input_channels : Nat
  output_channels : Nat
  supported_sample_rates : List Nat
  supported_buffer_sizes : List Nat
  default_sample_rate : Nat
  default_buffer_size : Nat
  driver : String
deriving DecidableEq

/-- Aggregate snapshot (struct `SystemAudioInfo`). -/
structure SystemAudioInfo where
  devices : List AudioDeviceInfo
  default_input : Option String
  default_output : Option String
  total_input_devices : Nat
  total_output_devices : Nat
deriving DecidableEq

/-- `AudioDeviceInfo::new` (`src/main.rs` lines 20-32). -/
def AudioDeviceInfo.new (name driver : String) : AudioDeviceInfo :=
  { name := name
    device_type := "Unknown"
    input_channels := 0
    output_channels := 0
    supported_sample_rates := []
    supported_buffer_sizes := [64, 128, 256, 512, 1024, 2048, 4096]
    default_sample_rate := 44100
    default_buffer_size := 1024
    driver := driver }

/-- The four-way table from `(input_channels > 0, output_channels > 0)`
to the `device_type` string, as stated by the spec. -/
def deviceTypeSpec (inCh outCh : Nat) : String :=
  if 0 < inCh then
    if 0 < outCh then "Input/Output" else "Input"
  else
    if 0 < outCh then "Output" else "Unknown"

/-- `AudioDeviceInfo::update_device_type` (`src/main.rs` lines 34-41,
identical in `src/devices/types.rs` lines 73-80), as a pure update. -/
def update_device_type (d : AudioDeviceInfo) : AudioDeviceInfo :=
  { d with device_type :=
      match decide (0 < d.input_channels), decide (0 < d.output_channels) with
      | true, true => "Input/Output"
      | true, false => "Input"
      | false, true => "Output"
      | false, false => "Unknown" }

/-! ## Enumerator record constructors -/

/-- The record pushed for one device by `get_cpal_devices`
(`src/main.rs` lines 114-131); the probed quantities (name, channel
counts, rate list, defaults) are parameters of the embedding. -/
def mkCpalDevice (name : String) (input_channels output_channels : Nat)
    (supported_sample_rates : List Nat)
    (default_sample_rate default_buffer_size : Nat) : AudioDeviceInfo :=
  { name := name
    device_type :=
      match decide (0 < input_channels), decide (0 < output_channels) with
      | true, true => "Input/Output"
      | true, false => "Input"
      | false, true => "Output"
      | false, false => "Unknown"
    input_channels := input_channels
    output_channels := output_channels
    supported_sample_rates := supported_sample_rates
    supported_buffer_sizes := [64, 128, 256, 512, 1024, 2048, 4096]
    default_sample_rate := default_sample_rate
    default_buffer_size := default_buffer_size
    driver := "CPAL" }

/-- The nine common rates probed by `get_alsa_devices`
(`src/main.rs` lines 177 and 206). -/
def common_rates : List Nat :=
  [8000, 11025, 22050, 44100, 48000, 88200, 96000, 176400, 192000]

/-- The rate list built by `get_alsa_devices` from a probed
`[min_rate, max_rate]` range (`src/main.rs` lines 175-187): the common
rates lying within the range, or both endpoints when none does. -/
def ratesFromRange (min_rate max_rate : Nat) : List Nat :=
  let supported := common_rates.filter (fun r => decide (min_rate ≤ r ∧ r ≤ max_rate))
  if supported.isEmpty then [min_rate, max_rate] else supported

/-- The per-name device entry of `get_alsa_devices`
(`src/main.rs` lines 222-245): a record is pushed only when at least one
direction has a nonzero channel count (the inner `match` additionally
`continue`s on the `(false, false)` arm). -/
def alsaDeviceEntry (device_name : String) (input_channels output_channels : Nat)
    (supported_rates : List Nat) : Option AudioDeviceInfo :=
  if 0 < input_channels ∨ 0 < output_channels then
    match decide (0 < input_channels), decide (0 < output_channels) with
    | false, false => none
    | bi, bo =>
      some
        { name := device_name
          device_type :=
            match bi, bo with
            | true, true => "Input/Output"
            | true, false => "Input"
            | false, true => "Output"
            | false, false => "Unknown"
          input_channels := input_channels
          output_channels := output_channels
          supported_sample_rates := supported_rates
          supported_buffer_sizes := [64, 128, 256, 512, 1024, 2048, 4096, 8192]
          default_sample_rate := 44100
          default_buffer_size := 1024
          driver := "ALSA" }
  else none

/-! ## Stream-description parsing and the `/proc` pcm reader -/

/-- The body of the line scan in `parse_stream_channels`
(`src/main.rs` lines 677-685): on the first line whose trimmed content
starts with `"Channels:"` and whose field after the first `':'` parses
as a `u32`, return that integer; otherwise keep scanning. -/
def channelsFromLines : List (List Char) → Option Nat
  | [] => none
  | line :: rest =>
    if ("Channels:".data).isPrefixOf (trimChars line) then
      match (splitOnChar ':' line).get? 1 with
      | some channels_str =>
        match parseU32 (trimChars channels_str) with
        | some channels => some channels
        | none => channelsFromLines rest
      | none => channelsFromLines rest
    else channelsFromLines rest

/-- `parse_stream_channels` (`src/main.rs` lines 668-689): locate the
`"Playback:"` or `"Capture:"` heading and scan the lines from there. -/
def parse_stream_channels (stream_content stream_type : String) : Option Nat :=
  let section_start := if stream_type = "PLAYBACK" then "Playback:" else "Capture:"
  match findSub stream_content.data section_start.data with
  | none => none
  | some start_pos => channelsFromLines (rustLines (stream_content.data.drop start_pos))

/-- The device-number extraction of `read_pcm_info`
(`src/main.rs` lines 620-624): characters `3 .. len-1` of `pcmXp`/`pcmXc`
when the directory name is longer than 4 characters, else `"0"`. -/
def pcmDeviceNum (pcm_dir : String) : String :=
  if 4 < pcm_dir.data.length then ⟨(pcm_dir.data.drop 3).dropLast⟩ else "0"

/-- The device record built by `read_pcm_info` before the type update
and the in-use marking (`src/main.rs` lines 630-649): a fresh record
named `hw:<card>,<device>` whose channel count for the matching
direction comes from the parsed `stream0` content, falls back to 2 when
that file cannot be read, and stays 0 when the file was read but the
parse yields nothing. -/
def pcmBaseDevice (pcm_dir stream_type card_num : String)
    (stream_content : Option String) : AudioDeviceInfo :=
  let device_name := "hw:" ++ card_num ++ "," ++ pcmDeviceNum pcm_dir
  let device0 := AudioDeviceInfo.new device_name "ALSA"
  match stream_content with
  | some stream =>
    match parse_stream_channels stream stream_type with
    | some channels =>
      if stream_type = "PLAYBACK" then { device0 with output_channels := channels }
      else if stream_type = "CAPTURE" then { device0 with input_channels := channels }
      else device0
    | none => device0
  | none =>
    if stream_type = "PLAYBACK" then { device0 with output_channels := 2 }
    else if stream_type = "CAPTURE" then { device0 with input_channels := 2 }
    else device0

/-- `read_pcm_info` (`src/main.rs` lines 612-665).  The two filesystem
reads are parameters of the embedding: `info_content` is the content of
`<card>/<pcm_dir>/info` (`none` when unreadable, in which case the
function returns `none`), `stream_content` the content of
`<card>/stream0`.  The card-name lookup of lines 627-628 is dead code
(its result is never used) and is omitted. -/
def read_pcm_info (pcm_dir stream_type card_num : String)
    (info_content stream_content : Option String) : Option AudioDeviceInfo :=
  match info_content with
  | none => none
  | some info =>
    let device2 := update_device_type (pcmBaseDevice pcm_dir stream_type card_num stream_content)
    let in_use := strContains info "subdevices_avail: 0" && strContains info "subdevices_count: 1"
    if in_use then some { device2 with name := device2.name ++ " (IN USE)" }
    else some device2

/-! ## Aggregator -/

/-- The default-input heuristic of `get_system_audio_info`
(`src/main.rs` lines 276-278) and `SystemAudioInfo::from_devices`. -/
def defaultInputPred (d : AudioDeviceInfo) : Bool :=
  decide (0 < d.input_channels) && (strContains d.name "default" || strContains d.name "hw:0")

/-- The default-output heuristic (`src/main.rs` lines 280-282). -/
def defaultOutputPred (d : AudioDeviceInfo) : Bool :=
  decide (0 < d.output_channels) && (strContains d.name "default" || strContains d.name "hw:0")

/-- `get_system_audio_info` (`src/main.rs` lines 256-291).  The two
backend enumerations are parameters: each backend's contribution
(possibly empty when the backend failed with a warning) is appended in
program order. -/
def get_system_audio_info (cpal_devices alsa_devices : List AudioDeviceInfo) : SystemAudioInfo :=
  let all_devices := cpal_devices ++ alsa_devices
  let input_count := (all_devices.filter (fun d => decide (0 < d.input_channels))).length
  let output_count := (all_devices.filter (fun d => decide (0 < d.output_channels))).length
  let default_input := (all_devices.find? defaultInputPred).map (·.name)
  let default_output := (all_devices.find? defaultOutputPred).map (·.name)
  { devices := all_devices
    default_input := default_input
    default_output := default_output
    total_input_devices := input_count
    total_output_devices := output_count }

/-- `SystemAudioInfo::from_devices` (`src/devices/types.rs`
lines 100-120). -/
def SystemAudioInfo.from_devices (devices : List AudioDeviceInfo) : SystemAudioInfo :=
  { devices := devices
    default_input := (devices.find? defaultInputPred).map (·.name)
    default_output := (devices.find? defaultOutputPred).map (·.name)
    total_input_devices := (devices.filter (fun d => decide (0 < d.input_channels))).length
    total_output_devices := (devices.filter (fun d => decide (0 < d.output_channels))).length }

/-! ## Filter/deduplicator (`filter_devices`, `src/main.rs` lines 431-514) -/

/-- The virtual-device test of the dedup stage
(`src/main.rs` lines 490-494). -/
def virtualName (name : String) : Bool :=
  strStarts name "dmix:" || strStarts name "dsnoop:" ||
  strStarts name "surround" || strStarts name "iec958:"

/-- The comparison key of the dedup stage (`src/main.rs` lines 497-502):
when the name starts with `"plughw:"`, Rust's `String::replace` rewrites
EVERY occurrence of `"plughw:"` to `"hw:"`; otherwise the name itself. -/
def simplifiedName (name : String) : String :=
  if strStarts name "plughw:" then strReplace name "plughw:" "hw:" else name

/-- The dedup/virtual-device-suppression fold of `filter_devices`
(`src/main.rs` lines 486-511), with the `HashSet` of seen simplified
names modelled as a list. -/
def dedupGo (seen : List String) : List AudioDeviceInfo → List AudioDeviceInfo
  | [] => []
  | d :: rest =>
    if virtualName d.name then dedupGo seen rest
    else if simplifiedName d.name ∈ seen then dedupGo seen rest
    else d :: dedupGo (simplifiedName d.name :: seen) rest

/-- `HashMap::get` on the card mapping, modelled as first-match lookup
in an association list. -/
def alistGet (m : List (String × String)) (k : String) : Option String :=
  (m.find? (fun p => p.1 == k)).map (·.2)

/-- The card-token normalization of the card filter
(`src/main.rs` lines 441-445). -/
def stripCard (card_id : String) : String :=
  if strStarts card_id "card" then ⟨card_id.data.drop 4⟩ else card_id

/-- The per-device predicate of the card filter
(`src/main.rs` lines 451-459). -/
def cardMatches (d : AudioDeviceInfo) (card_num : String)
    (target_card_name : Option String) (card_id : String) : Bool :=
  strContains d.name ("hw:" ++ card_num) ||
  strContains d.name ("card" ++ card_num) ||
  (match target_card_name with
   | some n => strContains d.name ("CARD=" ++ n)
   | none => false) ||
  strContains d.name ("CARD=" ++ card_id)

/-- The per-device predicate of the device-name filter
(`src/main.rs` lines 467-482); the `HashMap` of card descriptions is
modelled as a list of pairs (the loop returns true when any pair
matches, so iteration order is irrelevant). -/
def nameMatches (d : AudioDeviceInfo) (name_lower : String)
    (card_descriptions : List (String × String)) : Bool :=
  strContains (strToLower d.name) name_lower ||
  card_descriptions.any (fun p =>
    strContains (strToLower p.2) name_lower && strContains d.name ("CARD=" ++ p.1))

/-- `filter_devices` (`src/main.rs` lines 431-514).  The two `/proc`
lookups `get_card_mapping()` and `get_card_descriptions()` are
parameters of the embedding (`card_mapping`, `card_descriptions`),
fixed for a run. -/
def filter_devices (devices : List AudioDeviceInfo)
    (card_filter device_filter : Option String) (show_all : Bool)
    (card_mapping card_descriptions : List (String × String)) : List AudioDeviceInfo :=
  let f1 := match card_filter with
    | none => devices
    | some card_id =>
      let card_num := stripCard card_id
      let target_card_name := alistGet card_mapping card_num
      devices.filter (fun d => cardMatches d card_num target_card_name card_id)
  let f2 := match device_filter with
    | none => f1
    | some name_filter =>
      f1.filter (fun d => nameMatches d (strToLower name_filter) card_descriptions)
  if show_all then f2 else dedupGo [] f2

/-- The post-aggregation steps of `main` (`src/main.rs` lines 364-375):
apply `filter_devices` to the `devices` field (with `show_all` threaded
through the `if`/`else` exactly as written) and recompute the two
totals; the other fields are carried over. -/
def applyFilters (info : SystemAudioInfo)
    (card_filter device_filter : Option String) (show_all : Bool)
    (card_mapping card_descriptions : List (String × String)) : SystemAudioInfo :=
  let devs :=
    if !show_all then
      filter_devices info.devices card_filter device_filter false card_mapping card_descriptions
    else
      filter_devices info.devices card_filter device_filter true card_mapping card_descriptions
  { info with
    devices := devs
    total_input_devices := (devs.filter (fun d => decide (0 < d.input_channels))).length
    total_output_devices := (devs.filter (fun d => decide (0 < d.output_channels))).length }

/-! ## Claim-side reference definitions

These definitions are written from the words of the specification (or
of an amended claim), to be compared with the functions embedded from
the source above. -/

/-- Written from the claim's words for the dedup key: "a leading
`plughw:` is normalized to `hw:` for comparison purposes only" — only
the leading occurrence is rewritten. -/
def claimSimplifiedName (name : String) : String :=
  if strStarts name "plughw:" then "hw:" ++ ⟨name.data.drop 7⟩ else name

/-- Written from the claim's words for the dedup stage, parametrised by
the comparison key: a device is kept exactly when it is not a virtual
alias and no earlier (non-virtual) device of the list has the same
normalized name; kept devices are left unchanged, in order.  `prev`
accumulates the devices already scanned. -/
def claimDedupAux (key : String → String) (prev : List AudioDeviceInfo) :
    List AudioDeviceInfo → List AudioDeviceInfo
  | [] => []
  | d :: rest =>
    if !virtualName d.name &&
       prev.all (fun e => virtualName e.name || !(key e.name == key d.name)) then
      d :: claimDedupAux key (prev ++ [d]) rest
    else
      claimDedupAux key (prev ++ [d]) rest

/-- The dedup stage exactly as claim C1 states it: first-per-normalized
name with the LEADING-occurrence normalization. -/
def claimDedup (devices : List AudioDeviceInfo) : List AudioDeviceInfo :=
  claimDedupAux claimSimplifiedName [] devices

/-- The dedup stage as amended: same first-per-normalized-name rule but
with the key the code actually computes (every occurrence of `plughw:`
replaced when the name starts with `plughw:`). -/
def amendedDedup (devices : List AudioDeviceInfo) : List AudioDeviceInfo :=
  claimDedupAux simplifiedName [] devices

/-- A line that begins (after trimming) a stream section, used by the
claim-side parser: the literal headings `"Playback:"` and `"Capture:"`. -/
def headingLine (line : List Char) : Bool :=
  ("Playback:".data).isPrefixOf (trimChars line) ||
  ("Capture:".data).isPrefixOf (trimChars line)

/-- The channel extraction of a single line shared by the amended claim
C7: the integer after the first `':'` of a line whose trimmed content
starts with `"Channels:"`, `none` otherwise. -/
def lineChannels (line : List Char) : Option Nat :=
  if ("Channels:".data).isPrefixOf (trimChars line) then
    match (splitOnChar ':' line).get? 1 with
    | some channels_str => parseU32 (trimChars channels_str)
    | none => none
  else none

/-- Written from claim C7's words: locate the matching section heading,
keep only that section's lines UP TO the next section heading, return
the integer of the FIRST line whose trimmed content starts with
`"Channels:"`, and yield no result when that integer is unparseable. -/
def claim_parse_stream_channels (stream_content stream_type : String) : Option Nat :=
  let section_start := if stream_type = "PLAYBACK" then "Playback:" else "Capture:"
  match findSub stream_content.data section_start.data with
  | none => none
  | some start_pos =>
    let ls := rustLines (stream_content.data.drop start_pos)
    let sect := match ls with
      | [] => []
      | h :: rest => h :: rest.takeWhile (fun l => !headingLine l)
    match sect.find? (fun line => ("Channels:".data).isPrefixOf (trimChars line)) with
    | none => none
    | some line =>
      match (splitOnChar ':' line).get? 1 with
      | some channels_str => parseU32 (trimChars channels_str)
      | none => none

/-- Written from claim C9's words: the integer value a pcm `info` file
"indicates" for a field such as `subdevices_count:` — the integer after
that field name on the first line carrying it. -/
def infoFieldNat (info : String) (field : String) : Option Nat :=
  (rustLines info.data).findSome? (fun line =>
    if field.data.isPrefixOf (trimChars line) then
      parseU32 (trimChars ((trimChars line).drop field.data.length))
    else none)

/-! ## Concrete example devices used by the claims -/

/-- An input-only device at the canonical name `hw:0,0`. -/
def devHwInOnly : AudioDeviceInfo :=
  { AudioDeviceInfo.new "hw:0,0" "ALSA" with input_channels := 2, device_type := "Input" }

/-- An output device at the alias name `plughw:0,0`. -/
def devPlugOut : AudioDeviceInfo :=
  { AudioDeviceInfo.new "plughw:0,0" "ALSA" with output_channels := 2, device_type := "Output" }

/-- A device whose name contains `plughw:` only in a non-leading
position. -/
def devMidPlug : AudioDeviceInfo :=
  AudioDeviceInfo.new "hw:x,plughw:y" "ALSA"

/-- A device whose name both starts with `plughw:` and contains a second
occurrence of `plughw:`. -/
def devDoublePlug : AudioDeviceInfo :=
  AudioDeviceInfo.new "plughw:x,plughw:y" "ALSA"

/-! ## Helper lemmas -/

theorem find?_eq_head?_filter {α : Type} (p : α → Bool) :
    ∀ l : List α, l.find? p = (l.filter p).head?
  | [] => rfl
  | a :: l => by
    cases hpa : p a with
    | true => simp [List.find?, List.filter, hpa]
    | false =>
      simp only [List.find?, List.filter, hpa]
      exact find?_eq_head?_filter p l

theorem mem_of_mem_dedupGo {d : AudioDeviceInfo} :
    ∀ {l : List AudioDeviceInfo} {seen : List String}, d ∈ dedupGo seen l → d ∈ l := by
  intro l
  induction l with
  | nil => intro seen h; simp [dedupGo] at h
  | cons a rest ih =>
    intro seen h
    by_cases hv : virtualName a.name = true
    · simp only [dedupGo, hv, if_true] at h
      exact List.mem_cons_of_mem a (ih h)
    · by_cases hs : simplifiedName a.name ∈ seen
      · simp only [dedupGo, hv, if_false, Bool.false_eq_true, if_pos hs] at h
        exact List.mem_cons_of_mem a (ih h)
      · simp only [dedupGo, hv, if_false, Bool.false_eq_true, if_neg hs] at h
        rcases List.mem_cons.mp h with h | h
        · exact h ▸ List.mem_cons_self a rest
        · exact List.mem_cons_of_mem a (ih h)

theorem not_virtual_of_mem_dedupGo {d : AudioDeviceInfo} :
    ∀ {l : List AudioDeviceInfo} {seen : List String},
      d ∈ dedupGo seen l → virtualName d.name = false := by
  intro l
  induction l with
  | nil => intro seen h; simp [dedupGo] at h
  | cons a rest ih =>
    intro seen h
    by_cases hv : virtualName a.name = true
    · simp only [dedupGo, hv, if_true] at h
      exact ih h
    · by_cases hs : simplifiedName a.name ∈ seen
      · simp only [dedupGo, hv, if_false, Bool.false_eq_true, if_pos hs] at h
        exact ih h
      · simp only [dedupGo, hv, if_false, Bool.false_eq_true, if_neg hs] at h
        rcases List.mem_cons.mp h with h | h
        · subst h; exact Bool.not_eq_true _ ▸ Bool.of_not_eq_true hv
        · exact ih h

theorem dedupGo_idem :
    ∀ (l : List AudioDeviceInfo) (seen : List String),
      dedupGo seen (dedupGo seen l) = dedupGo seen l := by
  intro l
  induction l with
  | nil => intro seen; rfl
  | cons d rest ih =>
    intro seen
    by_cases hv : virtualName d.name = true
    · simp only [dedupGo, hv, if_true]; exact ih seen
    · by_cases hs : simplifiedName d.name ∈ seen
      · simp only [dedupGo, hv, if_false, Bool.false_eq_true, if_pos hs]; exact ih seen
      · simp only [dedupGo, hv, if_false, Bool.false_eq_true, if_neg hs]
        exact congrArg (d :: ·) (ih (simplifiedName d.name :: seen))

theorem dedupGo_eq_claimDedupAux :
    ∀ (l : List AudioDeviceInfo) (seen : List String) (prev : List AudioDeviceInfo),
      (∀ x : String,
        x ∈ seen ↔ ∃ e ∈ prev, virtualName e.name = false ∧ simplifiedName e.name = x) →
      dedupGo seen l = claimDedupAux simplifiedName prev l := by
  intro l
  induction l with
  | nil => intro seen prev hseen; rfl
  | cons d rest ih =>
    intro seen prev hseen
    by_cases hv : virtualName d.name = true
    · simp only [dedupGo, claimDedupAux, hv, if_true, Bool.not_true, Bool.false_and,
        Bool.false_eq_true, if_false]
      refine ih seen (prev ++ [d]) ?_
      intro x
      rw [hseen x]
      simp only [List.mem_append, List.mem_singleton]
      constructor
      · rintro ⟨e, he, hp⟩; exact ⟨e, Or.inl he, hp⟩
      · rintro ⟨e, he | he, hp⟩
        · exact ⟨e, he, hp⟩
        · subst he; exact absurd hp.1 (by simp [hv])
    · have hv' : virtualName d.name = false := Bool.not_eq_true _ ▸ Bool.of_not_eq_true hv
      by_cases hs : simplifiedName d.name ∈ seen
      · obtain ⟨e, he, hev, hek⟩ := (hseen (simplifiedName d.name)).mp hs
        have hall :
            prev.all (fun e =>
              virtualName e.name || !(simplifiedName e.name == simplifiedName d.name)) = false := by
          refine (List.all_eq_false).mpr ⟨e, he, ?_⟩
          simp [hev, hek]
        simp only [dedupGo, claimDedupAux, hv', Bool.false_eq_true, if_false, if_pos hs,
          hall, Bool.not_false, Bool.true_and]
        refine ih seen (prev ++ [d]) ?_
        intro x
        rw [hseen x]
        simp only [List.mem_append, List.mem_singleton]
        constructor
        · rintro ⟨f, hf, hp⟩; exact ⟨f, Or.inl hf, hp⟩
        · rintro ⟨f, hf | hf, hp⟩
          · exact ⟨f, hf, hp⟩
          · subst hf
            exact ⟨e, he, hev, hek.trans hp.2⟩
      · have hall :
            prev.all (fun e =>
              virtualName e.name || !(simplifiedName e.name == simplifiedName d.name)) = true := by
          refine List.all_eq_true.mpr ?_
          intro e he
          by_cases hev : virtualName e.name = true
          · simp [hev]
          · have hev' : virtualName e.name = false := Bool.not_eq_true _ ▸ Bool.of_not_eq_true hev
            have : simplifiedName e.name ≠ simplifiedName d.name := by
              intro hek
              exact hs ((hseen (simplifiedName d.name)).mpr ⟨e, he, hev', hek⟩)
            simp [hev', this]
        simp only [dedupGo, claimDedupAux, hv', Bool.false_eq_true, if_false, if_neg hs,
          hall, Bool.not_false, Bool.true_and, if_true]
        refine congrArg (d :: ·) (ih (simplifiedName d.name :: seen) (prev ++ [d]) ?_)
        intro x
        simp only [List.mem_cons, List.mem_append, List.not_mem_nil, or_false, hseen x]
        constructor
        · rintro (hx | ⟨e, he, hp⟩)
          · exact ⟨d, Or.inr rfl, hv', hx.symm⟩
          · exact ⟨e, Or.inl he, hp⟩
        · rintro ⟨e, he | he, hp⟩
          · exact Or.inr ⟨e, he, hp⟩
          · subst he; exact Or.inl hp.2.symm

theorem channelsFromLines_eq_findSome? :
    ∀ ls : List (List Char), channelsFromLines ls = ls.findSome? lineChannels
  | [] => rfl
  | line :: rest => by
    rw [List.findSome?_cons]
    by_cases hp : ("Channels:".data).isPrefixOf (trimChars line) = true
    · cases hsplit : (splitOnChar ':' line)[1]? with
      | none =>
        simp [channelsFromLines, lineChannels, hp, hsplit,
          channelsFromLines_eq_findSome? rest]
      | some cs =>
        cases hparse : parseU32 (trimChars cs) with
        | none =>
          simp [channelsFromLines, lineChannels, hp, hsplit, hparse,
            channelsFromLines_eq_findSome? rest]
        | some v => simp [channelsFromLines, lineChannels, hp, hsplit, hparse]
    · simp only [channelsFromLines, lineChannels, hp, Bool.false_eq_true, if_false]
      exact channelsFromLines_eq_findSome? rest

theorem update_device_type_fields (d : AudioDeviceInfo) :
    (update_device_type d).device_type = deviceTypeSpec d.input_channels d.output_channels ∧
    (update_device_type d).input_channels = d.input_channels ∧
    (update_device_type d).output_channels = d.output_channels ∧
    (update_device_type d).name = d.name := by
  unfold update_device_type deviceTypeSpec
  by_cases hi : 0 < d.input_channels <;> by_cases ho : 0 < d.output_channels <;>
    simp [hi, ho]

/-! ## Claim theorems -/

/-- Claim C3: in the aggregate built by `get_system_audio_info` and in
the post-filter snapshot built by the `main` pipeline step
(`applyFilters`), `total_input_devices` equals the number of devices in
the current `devices` list with `input_channels > 0` and
`total_output_devices` the number with `output_channels > 0` — the
counts are never stale. -/
theorem totals_reflect_current_devices
    (cpal_devices alsa_devices : List AudioDeviceInfo) (info : SystemAudioInfo)
    (card_filter device_filter : Option String) (show_all : Bool)
    (cm cd : List (String × String)) :
    (get_system_audio_info cpal_devices alsa_devices).total_input_devices
      = (get_system_audio_info cpal_devices alsa_devices).devices.countP
          (fun d => decide (0 < d.input_channels)) ∧
    (get_system_audio_info cpal_devices alsa_devices).total_output_devices
      = (get_system_audio_info cpal_devices alsa_devices).devices.countP
          (fun d => decide (0 < d.output_channels)) ∧
    (applyFilters info card_filter device_filter show_all cm cd).total_input_devices
      = (applyFilters info card_filter device_filter show_all cm cd).devices.countP
          (fun d => decide (0 < d.input_channels)) ∧
    (applyFilters info card_filter device_filter show_all cm cd).total_output_devices
      = (applyFilters info card_filter device_filter show_all cm cd).devices.countP
          (fun d => decide (0 < d.output_channels)) := by
  refine ⟨?_, ?_, ?_, ?_⟩ <;>
    simp [get_system_audio_info, applyFilters, List.countP_eq_length_filter]

/-- Claim C4: every device record produced by an enumerator
(`mkCpalDevice`, `alsaDeviceEntry`, `read_pcm_info`), freshly
constructed (`AudioDeviceInfo.new`) or updated afterwards
(`update_device_type`), carries exactly the `device_type` string
determined by the pair `(input_channels > 0, output_channels > 0)`:
`(true,true) ↦ "Input/Output"`, `(true,false) ↦ "Input"`,
`(false,true) ↦ "Output"`, `(false,false) ↦ "Unknown"` (the
`deviceTypeSpec` table); `update_device_type` moreover leaves the
channel counts unchanged. -/
theorem device_type_reflects_channels
    (d : AudioDeviceInfo) (name driver : String) (inCh outCh dsr dbs : Nat)
    (rates : List Nat) (pcm_dir stream_type card_num : String)
    (info_content stream_content : Option String) :
    (update_device_type d).device_type = deviceTypeSpec d.input_channels d.output_channels ∧
    (update_device_type d).input_channels = d.input_channels ∧
    (update_device_type d).output_channels = d.output_channels ∧
    (mkCpalDevice name inCh outCh rates dsr dbs).device_type = deviceTypeSpec inCh outCh ∧
    (AudioDeviceInfo.new name driver).device_type
      = deviceTypeSpec (AudioDeviceInfo.new name driver).input_channels
          (AudioDeviceInfo.new name driver).output_channels ∧
    (alsaDeviceEntry name inCh outCh rates).map (fun dev => dev.device_type)
      = (alsaDeviceEntry name inCh outCh rates).map
          (fun dev => deviceTypeSpec dev.input_channels dev.output_channels) ∧
    (read_pcm_info pcm_dir stream_type card_num info_content stream_content).map
        (fun dev => dev.device_type)
      = (read_pcm_info pcm_dir stream_type card_num info_content stream_content).map
          (fun dev => deviceTypeSpec dev.input_channels dev.output_channels) := by
  obtain ⟨h1, h2, h3, _⟩ := update_device_type_fields d
  refine ⟨h1, h2, h3, ?_, ?_, ?_, ?_⟩
  · unfold mkCpalDevice deviceTypeSpec
    by_cases hi : 0 < inCh <;> by_cases ho : 0 < outCh <;> simp [hi, ho]
  · simp [AudioDeviceInfo.new, deviceTypeSpec]
  · unfold alsaDeviceEntry deviceTypeSpec
    by_cases hi : 0 < inCh <;> by_cases ho : 0 < outCh <;> simp [hi, ho]
  · cases info_content with
    | none => rfl
    | some info =>
      obtain ⟨g1, g2, g3, _⟩ :=
        update_device_type_fields (pcmBaseDevice pcm_dir stream_type card_num stream_content)
      by_cases hu :
          (strContains info "subdevices_avail: 0" &&
            strContains info "subdevices_count: 1") = true
      · simp [read_pcm_info, hu, g1, g2, g3]
      · simp [read_pcm_info, hu, g1, g2, g3]

/-- Claim C10: the filtering step of `main` modifies only the
`devices`, `total_input_devices` and `total_output_devices` fields of
`SystemAudioInfo`; `default_input`/`default_output` are left unchanged,
so after filtering they may name a device no longer present in the
final list — as the concrete run aggregating an input-only `hw:0,0` and
an output `plughw:0,0` shows: `default_output` names `plughw:0,0`,
which dedup then drops. -/
theorem filtering_leaves_defaults_unchanged (info : SystemAudioInfo)
    (card_filter device_filter : Option String) (show_all : Bool)
    (cm cd : List (String × String)) :
    (applyFilters info card_filter device_filter show_all cm cd).default_input
      = info.default_input ∧
    (applyFilters info card_filter device_filter show_all cm cd).default_output
      = info.default_output ∧
    (applyFilters (get_system_audio_info [] [devHwInOnly, devPlugOut])
        none none false [] []).default_output = some "plughw:0,0" ∧
    ((applyFilters (get_system_audio_info [] [devHwInOnly, devPlugOut])
        none none false [] []).devices.all (fun d => d.name != "plughw:0,0")) = true := by
  refine ⟨rfl, rfl, ?_, ?_⟩ <;> decide

/-- Claim C5, counterexample: the claim asserts the probed rate list
has at least 2 entries whenever a range exists, but for the range
`[44100, 44100]` (a fixed-rate device) exactly one common rate lies
inside, so the list is the single entry `[44100]`. -/
theorem rates_min_two_entries_counterexample :
    ratesFromRange 44100 44100 = [44100] ∧
    ¬ 2 ≤ (ratesFromRange 44100 44100).length := by decide

/-- Claim C5 as amended: the rate list is exactly the common rates of
`common_rates` lying within `[min, max]`, or exactly the two endpoints
when no common rate lies within; `[44100, 48000]` yields
`[44100, 48000]` and `[1000, 2000]` yields `[1000, 2000]`; the result
has at least 1 entry whenever a range exists (2 cannot be guaranteed:
a range containing exactly one common rate yields a singleton). -/
theorem rates_from_range_amended (min_rate max_rate r : Nat) :
    (r ∈ ratesFromRange min_rate max_rate ↔
      (r ∈ common_rates ∧ min_rate ≤ r ∧ r ≤ max_rate) ∨
      ((∀ c ∈ common_rates, ¬(min_rate ≤ c ∧ c ≤ max_rate)) ∧
        (r = min_rate ∨ r = max_rate))) ∧
    ((ratesFromRange min_rate max_rate).Sublist common_rates ∨
      ratesFromRange min_rate max_rate = [min_rate, max_rate]) ∧
    ratesFromRange 44100 48000 = [44100, 48000] ∧
    ratesFromRange 1000 2000 = [1000, 2000] ∧
    1 ≤ (ratesFromRange min_rate max_rate).length := by
  by_cases hemp :
      (common_rates.filter (fun c => decide (min_rate ≤ c ∧ c ≤ max_rate))).isEmpty = true
  · have hnil : common_rates.filter (fun c => decide (min_rate ≤ c ∧ c ≤ max_rate)) = [] :=
      List.isEmpty_iff.mp hemp
    have hall : ∀ c ∈ common_rates, ¬(min_rate ≤ c ∧ c ≤ max_rate) := by
      intro c hc
      have := List.filter_eq_nil_iff.mp hnil c hc
      simpa using this
    refine ⟨?_, ?_, by decide, by decide, ?_⟩
    · simp only [ratesFromRange, hnil, List.isEmpty_nil, if_true]
      constructor
      · intro hr
        rcases List.mem_cons.mp hr with hr | hr
        · exact Or.inr ⟨hall, Or.inl hr⟩
        · exact Or.inr ⟨hall, Or.inr (List.mem_singleton.mp hr)⟩
      · rintro (⟨hrc, hr1, hr2⟩ | ⟨-, hr | hr⟩)
        · exact absurd ⟨hr1, hr2⟩ (hall r hrc)
        · exact hr ▸ List.mem_cons_self _ _
        · exact hr ▸ List.mem_cons_of_mem _ (List.mem_singleton.mpr rfl)
    · right; simp only [ratesFromRange, hnil, List.isEmpty_nil, if_true]
    · simp only [ratesFromRange, hnil, List.isEmpty_nil, if_true, List.length_cons,
        List.length_nil]
      omega
  · have hne : common_rates.filter (fun c => decide (min_rate ≤ c ∧ c ≤ max_rate)) ≠ [] := by
      intro h; exact hemp (List.isEmpty_iff.mpr h)
    refine ⟨?_, ?_, by decide, by decide, ?_⟩
    · simp only [ratesFromRange, List.isEmpty_eq_true, hne, if_false]
      constructor
      · intro hr
        have := List.mem_filter.mp hr
        exact Or.inl ⟨this.1, by simpa using this.2⟩
      · rintro (⟨hrc, hr1, hr2⟩ | ⟨hall, -⟩)
        · exact List.mem_filter.mpr ⟨hrc, by simp [hr1, hr2]⟩
        · exact absurd (List.filter_eq_nil_iff.mpr (by intro c hc; simpa using hall c hc)) hne
    · left
      simp only [ratesFromRange, List.isEmpty_eq_true, hne, if_false]
      exact List.filter_sublist common_rates
    · simp only [ratesFromRange, List.isEmpty_eq_true, hne, if_false]
      exact Nat.succ_le_of_lt (List.length_pos.mpr hne)

/-- Witness for the amended claim C5 at a concrete range. -/
theorem rates_from_range_amended_witness :
    44100 ∈ ratesFromRange 44100 48000 :=
  (rates_from_range_amended 44100 48000 44100).1.mpr (Or.inl (by decide))

/-- Claim C6: in the aggregate, `default_input` (resp. `default_output`)
is the name of the first device in list order with `input_channels > 0`
(resp. `output_channels > 0`) whose name contains the substring
`"default"` or the substring `"hw:0"`, and it is `none` exactly when no
device satisfies both conditions — for `get_system_audio_info` and for
`SystemAudioInfo.from_devices`. -/
theorem default_devices_heuristic
    (cpal_devices alsa_devices devices : List AudioDeviceInfo) :
    (get_system_audio_info cpal_devices alsa_devices).default_input
      = (((cpal_devices ++ alsa_devices).filter defaultInputPred).head?).map (·.name) ∧
    (get_system_audio_info cpal_devices alsa_devices).default_output
      = (((cpal_devices ++ alsa_devices).filter defaultOutputPred).head?).map (·.name) ∧
    ((get_system_audio_info cpal_devices alsa_devices).default_input = none ↔
      ∀ d ∈ cpal_devices ++ alsa_devices,
        ¬(0 < d.input_channels ∧
          (strContains d.name "default" = true ∨ strContains d.name "hw:0" = true))) ∧
    ((get_system_audio_info cpal_devices alsa_devices).default_output = none ↔
      ∀ d ∈ cpal_devices ++ alsa_devices,
        ¬(0 < d.output_channels ∧
          (strContains d.name "default" = true ∨ strContains d.name "hw:0" = true))) ∧
    (SystemAudioInfo.from_devices devices).default_input
      = ((devices.filter defaultInputPred).head?).map (·.name) ∧
    (SystemAudioInfo.from_devices devices).default_output
      = ((devices.filter defaultOutputPred).head?).map (·.name) := by
  have ein : (get_system_audio_info cpal_devices alsa_devices).default_input
      = ((cpal_devices ++ alsa_devices).find? defaultInputPred).map (fun d => d.name) := rfl
  have eout : (get_system_audio_info cpal_devices alsa_devices).default_output
      = ((cpal_devices ++ alsa_devices).find? defaultOutputPred).map (fun d => d.name) := rfl
  refine ⟨?_, ?_, ?_, ?_, ?_, ?_⟩
  · rw [ein, find?_eq_head?_filter]
  · rw [eout, find?_eq_head?_filter]
  · rw [ein, Option.map_eq_none']
    rw [List.find?_eq_none]
    constructor
    · intro h d hd hcontra
      apply h d hd
      simp only [defaultInputPred, Bool.and_eq_true, Bool.or_eq_true, decide_eq_true_eq]
      exact ⟨hcontra.1, hcontra.2⟩
    · intro h d hd
      have := h d hd
      simp only [defaultInputPred, Bool.and_eq_true, Bool.or_eq_true, decide_eq_true_eq]
      intro hcontra
      exact this ⟨hcontra.1, hcontra.2⟩
  · rw [eout, Option.map_eq_none']
    rw [List.find?_eq_none]
    constructor
    · intro h d hd hcontra
      apply h d hd
      simp only [defaultOutputPred, Bool.and_eq_true, Bool.or_eq_true, decide_eq_true_eq]
      exact ⟨hcontra.1, hcontra.2⟩
    · intro h d hd
      have := h d hd
      simp only [defaultOutputPred, Bool.and_eq_true, Bool.or_eq_true, decide_eq_true_eq]
      intro hcontra
      exact this ⟨hcontra.1, hcontra.2⟩
  · have e : (SystemAudioInfo.from_devices devices).default_input
        = (devices.find? defaultInputPred).map (fun d => d.name) := rfl
    rw [e, find?_eq_head?_filter]
  · have e : (SystemAudioInfo.from_devices devices).default_output
        = (devices.find? defaultOutputPred).map (fun d => d.name) := rfl
    rw [e, find?_eq_head?_filter]

/-- Witness for claim C6 at a concrete device list. -/
theorem default_devices_heuristic_witness :
    (get_system_audio_info [] [devHwInOnly, devPlugOut]).default_output
      = some "plughw:0,0" := by
  have h := (default_devices_heuristic [] [devHwInOnly, devPlugOut] []).2.1
  rw [h]; decide

/-- Claim C1, counterexample: the claim says only a LEADING `"plughw:"`
is normalized to `"hw:"` for comparison, but the code's
`String::replace` rewrites every occurrence.  With the two devices
named `"hw:x,plughw:y"` and `"plughw:x,plughw:y"`, the claim's
normalization maps the second name onto the first, so its dedup keeps
only the first device, while `filter_devices` (comparison keys
`"hw:x,plughw:y"` vs `"hw:x,hw:y"`) keeps both. -/
theorem dedup_leading_normalization_counterexample :
    filter_devices [devMidPlug, devDoublePlug] none none false [] []
      = [devMidPlug, devDoublePlug] ∧
    claimDedup [devMidPlug, devDoublePlug] = [devMidPlug] ∧
    filter_devices [devMidPlug, devDoublePlug] none none false [] []
      ≠ claimDedup [devMidPlug, devDoublePlug] := by decide

/-- Claim C1 as amended: in the dedup stage of `filter_devices` (when
`show_all` is false) every device whose name starts with `"dmix:"`,
`"dsnoop:"`, `"surround"` or `"iec958:"` is dropped; among the
remainder the comparison key replaces EVERY occurrence of `"plughw:"`
by `"hw:"` when the name starts with `"plughw:"` (comparison purposes
only), and only the first device in current list order per key is kept,
its stored name unchanged (`amendedDedup`); in particular `plughw:0,0`
and `hw:0,0` in the same list collapse to the single first-seen entry. -/
theorem dedup_stage_amended (l : List AudioDeviceInfo)
    (cm cd : List (String × String)) (d1 d2 : AudioDeviceInfo)
    (h1 : d1.name = "plughw:0,0") (h2 : d2.name = "hw:0,0") :
    filter_devices l none none false cm cd = dedupGo [] l ∧
    dedupGo [] l = amendedDedup l ∧
    (∀ d ∈ dedupGo [] l, virtualName d.name = false) ∧
    dedupGo [] [d1, d2] = [d1] ∧
    dedupGo [] [d2, d1] = [d2] := by
  have e1 : virtualName d1.name = false := by rw [h1]; decide
  have e2 : virtualName d2.name = false := by rw [h2]; decide
  have k1 : simplifiedName d1.name = "hw:0,0" := by rw [h1]; decide
  have k2 : simplifiedName d2.name = "hw:0,0" := by rw [h2]; decide
  refine ⟨rfl, ?_, ?_, ?_, ?_⟩
  · exact dedupGo_eq_claimDedupAux l [] [] (by simp)
  · intro d hd; exact not_virtual_of_mem_dedupGo hd
  · simp [dedupGo, e1, e2, k1, k2]
  · simp [dedupGo, e1, e2, k1, k2]

/-- Witness for the amended claim C1: the `plughw:0,0` / `hw:0,0` pair
collapses to the first-seen entry. -/
theorem dedup_stage_amended_witness :
    dedupGo [] [devPlugOut, devHwInOnly] = [devPlugOut] :=
  (dedup_stage_amended [] [] [] devPlugOut devHwInOnly rfl rfl).2.2.2.1

/-- Claim C2: `filter_devices` is idempotent — applying it twice with
the same card filter, device-name filter and `show_all` flag (and the
same card mapping/description snapshots) gives the same list as
applying it once. -/
theorem filter_self_absorb (p : AudioDeviceInfo → Bool) (l : List AudioDeviceInfo) :
    (l.filter p).filter p = l.filter p :=
  List.filter_eq_self.mpr (fun _ ha => List.of_mem_filter ha)

theorem filter_filter_absorb (p q : AudioDeviceInfo → Bool) (l : List AudioDeviceInfo) :
    (((l.filter p).filter q).filter p).filter q = (l.filter p).filter q := by
  have h1 : ((l.filter p).filter q).filter p = (l.filter p).filter q :=
    List.filter_eq_self.mpr (fun _ ha => List.of_mem_filter (List.mem_of_mem_filter ha))
  rw [h1]
  exact filter_self_absorb q (l.filter p)

theorem dedup_filter_absorb (p : AudioDeviceInfo → Bool) (l : List AudioDeviceInfo) :
    dedupGo [] ((dedupGo [] (l.filter p)).filter p) = dedupGo [] (l.filter p) := by
  have h1 : (dedupGo [] (l.filter p)).filter p = dedupGo [] (l.filter p) :=
    List.filter_eq_self.mpr (fun _ ha => List.of_mem_filter (mem_of_mem_dedupGo ha))
  rw [h1]
  exact dedupGo_idem _ []

theorem dedup_filter_filter_absorb (p q : AudioDeviceInfo → Bool) (l : List AudioDeviceInfo) :
    dedupGo [] (((dedupGo [] ((l.filter p).filter q)).filter p).filter q)
      = dedupGo [] ((l.filter p).filter q) := by
  have h1 : (dedupGo [] ((l.filter p).filter q)).filter p
      = dedupGo [] ((l.filter p).filter q) :=
    List.filter_eq_self.mpr (fun _ ha =>
      List.of_mem_filter (List.mem_of_mem_filter (mem_of_mem_dedupGo ha)))
  rw [h1]
  have h2 : (dedupGo [] ((l.filter p).filter q)).filter q
      = dedupGo [] ((l.filter p).filter q) :=
    List.filter_eq_self.mpr (fun _ ha => List.of_mem_filter (mem_of_mem_dedupGo ha))
  rw [h2]
  exact dedupGo_idem _ []

/-- Claim C2: `filter_devices` is idempotent — applying it twice with
the same card filter, device-name filter and `show_all` flag (and the
same card mapping/description snapshots) gives the same list as
applying it once. -/
theorem filter_devices_idempotent (devices : List AudioDeviceInfo)
    (card_filter device_filter : Option String) (show_all : Bool)
    (cm cd : List (String × String)) :
    filter_devices (filter_devices devices card_filter device_filter show_all cm cd)
      card_filter device_filter show_all cm cd
      = filter_devices devices card_filter device_filter show_all cm cd := by
  cases card_filter with
  | none =>
    cases device_filter with
    | none =>
      cases show_all with
      | true => rfl
      | false =>
        simp only [filter_devices]
        exact dedupGo_idem devices []
    | some nf =>
      cases show_all with
      | true =>
        simp only [filter_devices, if_true]
        exact filter_self_absorb _ devices
      | false =>
        simp only [filter_devices]
        exact dedup_filter_absorb _ devices
  | some c =>
    cases device_filter with
    | none =>
      cases show_all with
      | true =>
        simp only [filter_devices, if_true]
        exact filter_self_absorb _ devices
      | false =>
        simp only [filter_devices]
        exact dedup_filter_absorb _ devices
    | some nf =>
      cases show_all with
      | true =>
        simp only [filter_devices, if_true]
        exact filter_filter_absorb _ _ devices
      | false =>
        simp only [filter_devices]
        exact dedup_filter_filter_absorb _ _ devices

/-- Claim C7, counterexample: the claim restricts the scan to the
matching section's lines "up to the next section", but the code scans
from the heading to the END of the text.  On a stream description whose
`Playback:` section has no `Channels:` line while the following
`Capture:` section does, the code returns that later section's value
(4) whereas the claim's section-bounded reading yields no result. -/
theorem stream_channels_section_counterexample :
    parse_stream_channels "Playback:\nCapture:\n Channels: 4\n" "PLAYBACK" = some 4 ∧
    claim_parse_stream_channels "Playback:\nCapture:\n Channels: 4\n" "PLAYBACK" = none := by
  decide

/-- Claim C7 as amended: for every stream-description text and
direction, the parser locates the `"Playback:"` / `"Capture:"` heading
(no result when absent) and scans ALL lines from the heading to the end
of the text — not stopping at the next section — returning the integer
of the first line that both starts (trimmed) with `"Channels:"` and has
a parseable integer after its first colon; a line with an unparseable
integer is skipped, not fatal, as the concrete conjunct shows; no input
produces an error. -/
theorem parse_stream_channels_amended (stream_content stream_type : String) :
    parse_stream_channels stream_content stream_type =
      (match findSub stream_content.data
          (if stream_type = "PLAYBACK" then "Playback:" else "Capture:").data with
       | none => none
       | some start_pos =>
         (rustLines (stream_content.data.drop start_pos)).findSome? lineChannels) ∧
    parse_stream_channels "Playback:\n Channels: zz\nCapture:\n Channels: 6\n" "PLAYBACK"
      = some 6 := by
  refine ⟨?_, by decide⟩
  simp only [parse_stream_channels]
  cases h : findSub stream_content.data
      (if stream_type = "PLAYBACK" then "Playback:" else "Capture:").data with
  | none => rfl
  | some start_pos => exact channelsFromLines_eq_findSome? _

/-- Claim C8, counterexample: the claim says an unparseable
stream-description text defaults the direction's channel count to 2,
but when the `stream0` file is readable and merely fails to parse
(here: empty content, for which `parse_stream_channels` yields no
result), the channel count stays 0. -/
theorem stereo_fallback_counterexample :
    parse_stream_channels "" "PLAYBACK" = none ∧
    (read_pcm_info "pcm0p" "PLAYBACK" "0" (some "x") (some "")).map (·.output_channels)
      = some 0 := by decide

/-- Claim C8 as amended: for a filesystem-discovered pcm device, the
channel count for the matching direction defaults to 2 exactly when the
card's stream-description file cannot be READ at all; when the file is
read but cannot be parsed for the matching direction, the channel count
stays 0. -/
theorem stereo_fallback_amended (pcm_dir card_num : String) (info : String) :
    (read_pcm_info pcm_dir "PLAYBACK" card_num (some info) none).map (·.output_channels)
      = some 2 ∧
    (read_pcm_info pcm_dir "CAPTURE" card_num (some info) none).map (·.input_channels)
      = some 2 ∧
    (∀ stream : String, parse_stream_channels stream "PLAYBACK" = none →
      (read_pcm_info pcm_dir "PLAYBACK" card_num (some info) (some stream)).map
        (·.output_channels) = some 0) ∧
    (∀ stream : String, parse_stream_channels stream "CAPTURE" = none →
      (read_pcm_info pcm_dir "CAPTURE" card_num (some info) (some stream)).map
        (·.input_channels) = some 0) := by
  refine ⟨?_, ?_, ?_, ?_⟩
  · by_cases hu : (strContains info "subdevices_avail: 0" &&
        strContains info "subdevices_count: 1") = true <;>
      simp [read_pcm_info, hu, pcmBaseDevice, update_device_type, AudioDeviceInfo.new]
  · by_cases hu : (strContains info "subdevices_avail: 0" &&
        strContains info "subdevices_count: 1") = true <;>
      simp [read_pcm_info, hu, pcmBaseDevice, update_device_type, AudioDeviceInfo.new]
  · intro stream hparse
    by_cases hu : (strContains info "subdevices_avail: 0" &&
        strContains info "subdevices_count: 1") = true <;>
      simp [read_pcm_info, hu, pcmBaseDevice, update_device_type, hparse,
        AudioDeviceInfo.new]
  · intro stream hparse
    by_cases hu : (strContains info "subdevices_avail: 0" &&
        strContains info "subdevices_count: 1") = true <;>
      simp [read_pcm_info, hu, pcmBaseDevice, update_device_type, hparse,
        AudioDeviceInfo.new]

/-- Witness for the amended claim C8 at concrete inputs: unreadable
stream file gives 2 output channels, readable-but-unparseable gives 0. -/
theorem stereo_fallback_amended_witness :
    (read_pcm_info "pcm0p" "PLAYBACK" "0" (some "") none).map (·.output_channels)
      = some 2 ∧
    (read_pcm_info "pcm0p" "PLAYBACK" "0" (some "") (some "")).map (·.output_channels)
      = some 0 :=
  ⟨(stereo_fallback_amended "pcm0p" "0" "").1,
   (stereo_fallback_amended "pcm0p" "0" "").2.2.1 "" (by decide)⟩

/-- Claim C9, counterexample: the claim says the `" (IN USE)"` suffix is
attached exactly when the info file indicates 0 available subdevices
out of EXACTLY 1 total subdevice.  An info file indicating
`subdevices_count: 16` (and `subdevices_avail: 0`) still CONTAINS the
substring `"subdevices_count: 1"`, so the code attaches the suffix even
though the total is 16, not 1. -/
theorem in_use_substring_counterexample :
    infoFieldNat "subdevices_count: 16\nsubdevices_avail: 0\n" "subdevices_count:"
      = some 16 ∧
    infoFieldNat "subdevices_count: 16\nsubdevices_avail: 0\n" "subdevices_avail:"
      = some 0 ∧
    (read_pcm_info "pcm0p" "PLAYBACK" "0"
        (some "subdevices_count: 16\nsubdevices_avail: 0\n") none).map (·.name)
      = some "hw:0,0 (IN USE)" := by decide

/-- Claim C9 as amended: a filesystem-discovered device's name receives
the `" (IN USE)"` suffix exactly when the info text CONTAINS both
literal substrings `"subdevices_avail: 0"` and `"subdevices_count: 1"`
(a substring test, not a parse of the two values — so e.g. a total of
16 with 0 available also matches); otherwise the name
`hw:<card>,<device>` is left unchanged. -/
theorem in_use_suffix_amended (pcm_dir stream_type card_num : String)
    (info : String) (stream_content : Option String) :
    (read_pcm_info pcm_dir stream_type card_num (some info) stream_content).map (·.name)
      = some (if strContains info "subdevices_avail: 0" &&
                 strContains info "subdevices_count: 1"
              then ("hw:" ++ card_num ++ "," ++ pcmDeviceNum pcm_dir) ++ " (IN USE)"
              else "hw:" ++ card_num ++ "," ++ pcmDeviceNum pcm_dir) ∧
    read_pcm_info pcm_dir stream_type card_num none stream_content = none := by
  refine ⟨?_, rfl⟩
  have hbase : (pcmBaseDevice pcm_dir stream_type card_num stream_content).name
      = "hw:" ++ card_num ++ "," ++ pcmDeviceNum pcm_dir := by
    unfold pcmBaseDevice
    cases stream_content with
    | none =>
      by_cases h1 : stream_type = "PLAYBACK"
      · simp [h1, AudioDeviceInfo.new]
      · by_cases h2 : stream_type = "CAPTURE" <;> simp [h1, h2, AudioDeviceInfo.new]
    | some stream =>
      by_cases h1 : stream_type = "PLAYBACK"
      · subst h1
        cases hp : parse_stream_channels stream "PLAYBACK" with
        | none => simp [hp, AudioDeviceInfo.new]
        | some channels => simp [hp, AudioDeviceInfo.new]
      · by_cases h2 : stream_type = "CAPTURE"
        · subst h2
          cases hp : parse_stream_channels stream "CAPTURE" with
          | none => simp [hp, AudioDeviceInfo.new]
          | some channels => simp [hp, h1, AudioDeviceInfo.new]
        · cases hp : parse_stream_channels stream stream_type with
          | none => simp [hp, AudioDeviceInfo.new]
          | some channels => simp [hp, h1, h2, AudioDeviceInfo.new]
  by_cases hu : (strContains info "subdevices_avail: 0" &&
      strContains info "subdevices_count: 1") = true <;>
    simp [read_pcm_info, hu, update_device_type, hbase]

end AudioInterrogator
